import Mathlib

/-!
Verification development for the Shark library fragments
`Models/OnlineRNNet.h` and `Models/MeanModel.h`.

Scalars (C++ `double`) are modelled as rationals `ℚ`, vectors (`RealVector`)
as `List ℚ`, and matrices (`RealMatrix`) as `List (List ℚ)` in row-major
layout.  Fallible operations (C++ exceptions via `SHARKEXCEPTION` /
`SHARK_RUNTIME_CHECK`) return `Except String`.

The repository ships only the header `OnlineRNNet.h`: the bodies of
`OnlineRNNet::eval` and `OnlineRNNet::weightedParameterDerivative` live in an
implementation file that is not part of the sources.  Those two bodies are
modelled from the specification text (real-time recurrent learning recurrence,
gradient contraction); every definition doing so carries a doc comment that
starts with `Modelled from the spec:`.  Everything else is translated directly
from the headers.
-/

namespace SharkSpec

/-- Model of the external collaborator `RecurrentStructure` (its header is not
part of the sources; the spec treats it as an external topology description).
It exposes unit/neuron/parameter counts, input/output sizes, a weight lookup
`weightVal k l` giving the weight of the connection from source unit `l` into
neuron `k` (0 if unconnected), `paramOf k l` giving the parameter index owning
that connection (`none` for constant/absent connections), the declared latency
`isRecurrent k l` (a recurrent connection reads the previous step's
activation), and the neuron activation function with its derivative.
Units are indexed `0 .. numberOfUnits-1`; the neurons are the trailing
`numberOfNeurons` units and the outputs the trailing `outputs` units. -/
structure RecurrentStructure where
  inputs : ℕ
  outputs : ℕ
  numberOfUnits : ℕ
  numberOfNeurons : ℕ
  parameters : ℕ
  weightVal : ℕ → ℕ → ℚ
  paramOf : ℕ → ℕ → Option ℕ
  isRecurrent : ℕ → ℕ → Bool
  neuron : ℚ → ℚ
  neuronDerivative : ℚ → ℚ

/-- State of the network, from `OnlineRNNet.h` lines 65–86: the current
activation, the previous step's activation, and the sensitivity tensor
`unitGradient` indexed `[parameter][neuron]`. -/
structure InternalState where
  activation : List ℚ
  lastActivation : List ℚ
  unitGradient : List (List ℚ)
deriving DecidableEq

/-- The evaluator itself: a (borrowed) topology plus the gradient flag fixed
at construction (`OnlineRNNet.h` lines 92, 179–182). -/
structure OnlineRNNet where
  mpe_structure : RecurrentStructure
  m_computeGradient : Bool

/-- Input dimension (`OnlineRNNet.h` lines 114–116). -/
def OnlineRNNet.inputSize (net : OnlineRNNet) : ℕ :=
  net.mpe_structure.inputs

/-- Output dimension (`OnlineRNNet.h` lines 119–121). -/
def OnlineRNNet.outputSize (net : OnlineRNNet) : ℕ :=
  net.mpe_structure.outputs

/-- Number of parameters (`OnlineRNNet.h` lines 148–150). -/
def OnlineRNNet.numberOfParameters (net : OnlineRNNet) : ℕ :=
  net.mpe_structure.parameters

/-- `createState` (`OnlineRNNet.h` lines 152–154) builds an `InternalState`
via the constructor at lines 67–70: both activation vectors are zero vectors
of length `numberOfUnits`, and `unitGradient` is the
`parameters × numberOfNeurons` zero matrix.  The constructor takes only the
structure — the `m_computeGradient` flag plays no role here. -/
def OnlineRNNet.createState (net : OnlineRNNet) : InternalState :=
  { activation := List.replicate net.mpe_structure.numberOfUnits 0
    lastActivation := List.replicate net.mpe_structure.numberOfUnits 0
    unitGradient := List.replicate net.mpe_structure.parameters
      (List.replicate net.mpe_structure.numberOfNeurons 0) }

/-- The no-state `eval` overload (`OnlineRNNet.h` lines 108–110): it
unconditionally throws. -/
def OnlineRNNet.evalNoState (net : OnlineRNNet) (pattern : List (List ℚ)) :
    Except String (List (List ℚ)) :=
  Except.error "[OnlineRNNet::eval] Eval can not be called without state object"

/-- Resizing a vector to length `n`, preserving the existing prefix and
zero-filling any new slots.  `setOutputActivation` resizes to
`numberOfUnits`; on a state respecting the documented length invariant this
is the identity, which is the only case the source exercises. -/
def resizeVec (v : List ℚ) (n : ℕ) : List ℚ :=
  v.take n ++ List.replicate (n - v.length) 0

/-- `setOutputActivation` (`OnlineRNNet.h` lines 168–172): resize the
activation vector to `numberOfUnits` and assign the given vector to the
subrange `[numberOfUnits - outputSize, numberOfUnits)`, i.e. the output
slots.  The subrange assignment (which in the source requires the value to
have exactly `outputSize` entries) replaces the suffix. -/
def OnlineRNNet.setOutputActivation (net : OnlineRNNet) (state : InternalState)
    (activation : List ℚ) : InternalState :=
  let n := net.mpe_structure.numberOfUnits
  let resized := resizeVec state.activation n
  { state with activation := resized.take (n - net.outputSize) ++ activation }

/-- Entry `(p, k)` of a row-major matrix, 0 outside the stored shape. -/
def entry (G : List (List ℚ)) (p k : ℕ) : ℚ :=
  (G.getD p []).getD k 0

/-- Unit index of neuron `k`: the neurons are the trailing `numberOfNeurons`
units. -/
def RecurrentStructure.neuronUnit (st : RecurrentStructure) (k : ℕ) : ℕ :=
  st.numberOfUnits - st.numberOfNeurons + k

/-- Sensitivity of unit `l` to parameter `p` read from the stored
`[parameter][neuron]` tensor: non-neuron units (inputs, bias) do not depend
on any parameter and carry sensitivity 0. -/
def RecurrentStructure.sensUnit (st : RecurrentStructure) (G : List (List ℚ))
    (p l : ℕ) : ℚ :=
  if st.numberOfUnits - st.numberOfNeurons ≤ l then
    entry G p (l - (st.numberOfUnits - st.numberOfNeurons))
  else 0

/-- Value flowing over the connection from source unit `l` into neuron `k`
at the current step: a recurrent connection reads the previous step's
activation, a feedforward connection the current one. -/
def RecurrentStructure.connVal (st : RecurrentStructure) (prev cur : List ℚ)
    (k l : ℕ) : ℚ :=
  if st.isRecurrent k l then prev.getD l 0 else cur.getD l 0

/-- Modelled from the spec: pre-activation of neuron `k` — the weighted sum
over all source units of the value flowing over each connection
(spec §4.1 step 3; the body of `OnlineRNNet::eval` is not in the sources). -/
def RecurrentStructure.preActivation (st : RecurrentStructure)
    (prev cur : List ℚ) (k : ℕ) : ℚ :=
  ((List.range st.numberOfUnits).map fun l =>
    st.weightVal k l * st.connVal prev cur k l).sum

/-- Modelled from the spec: step 2 of the forward pass — copy the input
vector into the input slots (the leading `inputs` units); all other slots
start from the previous activation (spec §4.1). -/
def RecurrentStructure.inputFill (st : RecurrentStructure)
    (prev input : List ℚ) : List ℚ :=
  (List.range st.numberOfUnits).map fun l =>
    if l < st.inputs then input.getD l 0 else prev.getD l 0

/-- Modelled from the spec: one neuron update of the forward pass — write
`neuron(preActivation)` into the neuron's unit slot (spec §4.1 step 3). -/
def RecurrentStructure.stepNeuron (st : RecurrentStructure) (prev : List ℚ)
    (act : List ℚ) (k : ℕ) : List ℚ :=
  act.set (st.neuronUnit k) (st.neuron (st.preActivation prev act k))

/-- Modelled from the spec: the whole forward activation pass — neurons are
processed in fixed index order, so feedforward connections read current-step
values already computed earlier in the order (spec §4.1 step 3; the body of
`OnlineRNNet::eval` is not in the sources). -/
def RecurrentStructure.forwardActivations (st : RecurrentStructure)
    (prev input : List ℚ) : List ℚ :=
  (List.range st.numberOfNeurons).foldl (st.stepNeuron prev)
    (st.inputFill prev input)

/-- Modelled from the spec: the real-time recurrent learning update of the
sensitivity tensor (spec §4.2; part of `OnlineRNNet::eval`, whose body is
not in the sources).  For every parameter `p` and neuron `k`,

  newSens[p][k] = f'(preActivation k) *
    Σ_l ( weightVal k l * oldSens[p][l]
          + (value flowing over (l → k) if paramOf k l = p, else 0) ). -/
def RecurrentStructure.updateUnitGradient (st : RecurrentStructure)
    (prev cur : List ℚ) (G : List (List ℚ)) : List (List ℚ) :=
  (List.range st.parameters).map fun p =>
    (List.range st.numberOfNeurons).map fun k =>
      st.neuronDerivative (st.preActivation prev cur k) *
        ((List.range st.numberOfUnits).map fun l =>
          st.weightVal k l * st.sensUnit G p l +
            if st.paramOf k l = some p then st.connVal prev cur k l else 0).sum

/-- Modelled from the spec: one full `step` of `OnlineRNNet::eval` (body not
in the sources) — snapshot the activation into `lastActivation`, run the
forward pass, update the sensitivity tensor when the gradient flag is set,
and return the trailing `outputs` entries of the new activation
(spec §4.1–§4.2). -/
def OnlineRNNet.evalStep (net : OnlineRNNet) (s : InternalState)
    (input : List ℚ) : InternalState × List ℚ :=
  let st := net.mpe_structure
  let newAct := st.forwardActivations s.activation input
  let newGrad :=
    if net.m_computeGradient then
      st.updateUnitGradient s.activation newAct s.unitGradient
    else s.unitGradient
  (⟨newAct, s.activation, newGrad⟩,
    newAct.drop (st.numberOfUnits - st.outputs))

/-- Modelled from the spec: `OnlineRNNet::weightedParameterDerivative` (body
not in the sources) — fail if the sensitivity tensor was never allocated,
otherwise contract it against the loss coefficients:
`gradient[p] = Σ_k coefficients[k] * sensitivity[p][output neuron k]`, where
the output neurons are the trailing `outputs` neurons (spec §4.3). -/
def OnlineRNNet.weightedParameterDerivative (net : OnlineRNNet)
    (coefficients : List ℚ) (s : InternalState) : Except String (List ℚ) :=
  let st := net.mpe_structure
  if s.unitGradient = [] then
    Except.error "[OnlineRNNet::weightedParameterDerivative] sensitivity tensor was never allocated"
  else
    Except.ok ((List.range st.parameters).map fun p =>
      ((List.range st.outputs).map fun k =>
        coefficients.getD k 0 *
          entry s.unitGradient p (st.numberOfNeurons - st.outputs + k)).sum)

/-- Modelled from the spec: running a whole sequence — one `evalStep` per
time index followed by a gradient contraction with that step's loss
coefficients, collecting the output and gradient of every step
(spec §2 control flow). -/
def OnlineRNNet.runSequence (net : OnlineRNNet) (s : InternalState)
    (steps : List (List ℚ × List ℚ)) :
    List (List ℚ × Except String (List ℚ)) :=
  (steps.foldl
    (fun acc step =>
      let r := net.evalStep acc.1 step.1
      (r.1, acc.2 ++ [(r.2, net.weightedParameterDerivative step.2 r.1)]))
    ((s, []) : InternalState × List (List ℚ × Except String (List ℚ)))).2

/-- State of the ensemble `MeanModel<ModelType>` (`MeanModel.h` lines
154–163): the collected models, their weights, and the running total of the
weights.  The member models are kept abstract in the type parameter `M`. -/
structure MeanModel (M : Type) where
  m_models : List M
  m_weight : List ℚ
  m_weightSum : ℚ
deriving DecidableEq

/-- The `MeanModel` constructor (`MeanModel.h` line 81): empty ensemble with
`m_weightSum = 0`. -/
def MeanModel.init {M : Type} : MeanModel M :=
  { m_models := [], m_weight := [], m_weightSum := 0 }

/-- `MeanModel::addModel` (`MeanModel.h` lines 127–132):
`SHARK_RUNTIME_CHECK(weight > 0)` throws before any member is touched;
otherwise the model and its weight are appended and the weight added to the
running total. -/
def MeanModel.addModel {M : Type} (mm : MeanModel M) (model : M)
    (weight : ℚ) : Except String (MeanModel M) :=
  if 0 < weight then
    Except.ok
      { m_models := mm.m_models ++ [model]
        m_weight := mm.m_weight ++ [weight]
        m_weightSum := mm.m_weightSum + weight }
  else Except.error "Weights must be positive"

/-- `MeanModel::clearModels` (`MeanModel.h` lines 117–121). -/
def MeanModel.clearModels {M : Type} (mm : MeanModel M) : MeanModel M :=
  { m_models := [], m_weight := [], m_weightSum := 0 }

/-- `MeanModel::setWeight` (`MeanModel.h` lines 144–147), verbatim:
`m_weightSum = newWeight - m_weight[i]; m_weight[i] = newWeight;` — the
running total is overwritten by the difference, not adjusted by it. -/
def MeanModel.setWeight {M : Type} (mm : MeanModel M) (i : ℕ)
    (newWeight : ℚ) : MeanModel M :=
  { mm with
    m_weightSum := newWeight - mm.m_weight.getD i 0
    m_weight := mm.m_weight.set i newWeight }

/-- Documented invariant of the stored total (`MeanModel.h` lines 161–162
document `m_weightSum` as the "Total sum of weights", and `doEval` at line
50 divides by it to form the weighted mean). -/
def MeanModel.weightInvariant {M : Type} (mm : MeanModel M) : Prop :=
  mm.m_weightSum = mm.m_weight.sum

/-- The concrete operation sequence addModel(w=1); addModel(w=2);
setWeight(0, 5) starting from a fresh ensemble. -/
def afterOps : Except String (MeanModel Unit) := do
  let m1 ← MeanModel.init.addModel () 1
  let m2 ← m1.addModel () 2
  pure (m2.setWeight 0 5)

/-! Concrete instances used as witnesses: the spec §8 end-to-end topology —
1 input unit, a bias unit, and 1 self-recurrent output neuron (3 units),
with input weight owned by parameter 0 and the recurrent self-weight by
parameter 1, identity activation. -/

/-- Concrete topology: 1 input (unit 0), bias (unit 1), 1 neuron (unit 2)
which is also the single output; input weight 1 (parameter 0, feedforward),
self-recurrent weight 1/2 (parameter 1). -/
def stA : RecurrentStructure where
  inputs := 1
  outputs := 1
  numberOfUnits := 3
  numberOfNeurons := 1
  parameters := 2
  weightVal := fun _ l => if l = 0 then 1 else if l = 2 then 1/2 else 0
  paramOf := fun _ l => if l = 0 then some 0 else if l = 2 then some 1 else none
  isRecurrent := fun _ l => l == 2
  neuron := fun x => x
  neuronDerivative := fun _ => 1

/-- The concrete evaluator over `stA` with gradient computation disabled. -/
def netNoGrad : OnlineRNNet := ⟨stA, false⟩

/-- The concrete evaluator over `stA` with gradient computation enabled. -/
def netGrad : OnlineRNNet := ⟨stA, true⟩

/-- Reading index `i < n` out of `(List.range n).map f` yields `f i`. -/
theorem getD_map_range {α : Type} (f : ℕ → α) (d : α) {n i : ℕ} (h : i < n) :
    ((List.range n).map f).getD i d = f i := by
  rw [List.getD_eq_getElem?_getD, List.getElem?_map, List.getElem?_range h]
  rfl

/-- Every entry of the zero matrix is zero, whatever the indices. -/
theorem entry_replicate_zero (P N p k : ℕ) :
    entry (List.replicate P (List.replicate N (0 : ℚ))) p k = 0 := by
  have houter : (List.replicate P (List.replicate N (0 : ℚ))).getD p [] = [] ∨
      (List.replicate P (List.replicate N (0 : ℚ))).getD p [] =
        List.replicate N 0 := by
    rcases lt_or_le p P with hp | hp
    · right
      rw [List.getD_eq_getElem?_getD, List.getElem?_replicate_of_lt hp,
        Option.getD_some]
    · left
      rw [List.getD_eq_getElem?_getD, List.getElem?_replicate,
        if_neg (Nat.not_lt.mpr hp)]
      rfl
  unfold entry
  rcases houter with h | h <;> rw [h]
  · rfl
  · rcases lt_or_le k N with hk | hk
    · rw [List.getD_eq_getElem?_getD, List.getElem?_replicate_of_lt hk,
        Option.getD_some]
    · rw [List.getD_eq_getElem?_getD, List.getElem?_replicate,
        if_neg (Nat.not_lt.mpr hk)]
      rfl

/-- C6: for every input pattern, the evaluation entry point that takes no
state object fails immediately with an exception and never computes an
output (`OnlineRNNet.h` lines 108–110). -/
theorem evalNoState_always_throws (net : OnlineRNNet)
    (pattern : List (List ℚ)) :
    net.evalNoState pattern =
      Except.error "[OnlineRNNet::eval] Eval can not be called without state object" :=
  rfl

/-- C7: a freshly created state has zero activation and previous activation
vectors of length `numberOfUnits` and a zero sensitivity tensor of shape
`numberOfParameters × numberOfNeurons` (`OnlineRNNet.h` lines 67–70,
152–154). -/
theorem createState_zero_initialized (net : OnlineRNNet) :
    net.createState.activation =
        List.replicate net.mpe_structure.numberOfUnits 0 ∧
      net.createState.lastActivation =
        List.replicate net.mpe_structure.numberOfUnits 0 ∧
      net.createState.unitGradient =
        List.replicate net.numberOfParameters
          (List.replicate net.mpe_structure.numberOfNeurons 0) :=
  ⟨rfl, rfl, rfl⟩

/-- C3 counterexample: with gradient computation disabled at construction,
`createState` still allocates the `parameters × numberOfNeurons` sensitivity
tensor — here a 2 × 1 zero matrix, not an absent one. -/
theorem createState_allocates_despite_disabled_gradient :
    netNoGrad.m_computeGradient = false ∧
      netNoGrad.createState.unitGradient = [[0], [0]] :=
  ⟨rfl, rfl⟩

/-- C3 (amended): the gradient flag chosen at construction plays no role in
state creation — the state created without gradient tracking is identical to
the one created with it, and its sensitivity tensor is always the
`parameters × numberOfNeurons` zero matrix. -/
theorem createState_ignores_gradient_flag (st : RecurrentStructure) :
    OnlineRNNet.createState ⟨st, false⟩ = OnlineRNNet.createState ⟨st, true⟩ ∧
      (OnlineRNNet.createState ⟨st, false⟩).unitGradient =
        List.replicate st.parameters (List.replicate st.numberOfNeurons 0) :=
  ⟨rfl, rfl⟩

/-- C4 counterexample: on a state created with gradient tracking disabled,
the gradient contraction does not fail — `createState` allocated the zero
sensitivity tensor anyway, so the call succeeds and returns exactly the zero
vector. -/
theorem weightedParameterDerivative_no_tracking_returns_zero :
    netNoGrad.weightedParameterDerivative [1] netNoGrad.createState =
      Except.ok [0, 0] := by
  have hne : netNoGrad.createState.unitGradient ≠ [] := by
    intro h
    exact absurd (congrArg List.length h) (by decide)
  unfold OnlineRNNet.weightedParameterDerivative
  rw [if_neg hne]
  norm_num [OnlineRNNet.createState, netNoGrad, stA, entry, List.range_succ]

/-- C4 (amended): for every topology with at least one parameter, calling
the gradient contraction on the state freshly created with gradient tracking
disabled does not fail: since `createState` unconditionally allocates the
zero sensitivity tensor, the call succeeds and returns the zero vector of
length `numberOfParameters`. -/
theorem weightedParameterDerivative_no_tracking_succeeds
    (st : RecurrentStructure) (coefficients : List ℚ)
    (h : 0 < st.parameters) :
    OnlineRNNet.weightedParameterDerivative ⟨st, false⟩ coefficients
        (OnlineRNNet.createState ⟨st, false⟩) =
      Except.ok (List.replicate st.parameters 0) := by
  have hG : (OnlineRNNet.createState ⟨st, false⟩).unitGradient =
      List.replicate st.parameters (List.replicate st.numberOfNeurons 0) := rfl
  have hne : (OnlineRNNet.createState ⟨st, false⟩).unitGradient ≠ [] := by
    rw [hG]
    intro hcon
    have := congrArg List.length hcon
    simp at this
    omega
  unfold OnlineRNNet.weightedParameterDerivative
  rw [if_neg hne]
  have hzero : ∀ p : ℕ,
      ((List.range st.outputs).map fun k =>
        coefficients.getD k 0 *
          entry (OnlineRNNet.createState ⟨st, false⟩).unitGradient p
            (st.numberOfNeurons - st.outputs + k)).sum = 0 := by
    intro p
    have hfun : (fun k => coefficients.getD k 0 *
        entry (OnlineRNNet.createState ⟨st, false⟩).unitGradient p
          (st.numberOfNeurons - st.outputs + k)) = fun _ : ℕ => (0 : ℚ) := by
      funext k
      rw [hG, entry_replicate_zero, mul_zero]
    rw [hfun]
    simp
  simp only [hzero, List.map_const', List.length_range]

/-- Witness for the amended C4 theorem at the concrete topology `stA`. -/
theorem weightedParameterDerivative_no_tracking_succeeds_witness :
    0 < stA.parameters ∧
      OnlineRNNet.weightedParameterDerivative ⟨stA, false⟩ [1]
          (OnlineRNNet.createState ⟨stA, false⟩) =
        Except.ok (List.replicate stA.parameters 0) :=
  ⟨by decide,
    weightedParameterDerivative_no_tracking_succeeds stA [1] (by decide)⟩

/-- C5: on a state respecting the length invariant, `setOutputActivation`
with a vector of output-size length changes only the trailing `outputSize`
slots of `activation` (which become that vector); every non-output entry of
`activation`, the whole `lastActivation` vector, and the whole sensitivity
tensor are unchanged (`OnlineRNNet.h` lines 168–172). -/
theorem setOutputActivation_frame (net : OnlineRNNet) (s : InternalState)
    (v : List ℚ)
    (hlen : s.activation.length = net.mpe_structure.numberOfUnits)
    (hv : v.length = net.outputSize)
    (hout : net.outputSize ≤ net.mpe_structure.numberOfUnits) :
    (net.setOutputActivation s v).activation =
        s.activation.take
          (net.mpe_structure.numberOfUnits - net.outputSize) ++ v ∧
      (∀ i, i < net.mpe_structure.numberOfUnits - net.outputSize →
        (net.setOutputActivation s v).activation.getD i 0 =
          s.activation.getD i 0) ∧
      (net.setOutputActivation s v).activation.drop
          (net.mpe_structure.numberOfUnits - net.outputSize) = v ∧
      (net.setOutputActivation s v).lastActivation = s.lastActivation ∧
      (net.setOutputActivation s v).unitGradient = s.unitGradient := by
  have hresize :
      resizeVec s.activation net.mpe_structure.numberOfUnits =
        s.activation := by
    unfold resizeVec
    rw [List.take_of_length_le (le_of_eq hlen), hlen, Nat.sub_self]
    simp
  have hact : (net.setOutputActivation s v).activation =
      s.activation.take
        (net.mpe_structure.numberOfUnits - net.outputSize) ++ v := by
    show (resizeVec s.activation net.mpe_structure.numberOfUnits).take
        (net.mpe_structure.numberOfUnits - net.outputSize) ++ v = _
    rw [hresize]
  have htakelen :
      (s.activation.take
        (net.mpe_structure.numberOfUnits - net.outputSize)).length =
        net.mpe_structure.numberOfUnits - net.outputSize := by
    simp only [List.length_take, hlen]
    omega
  refine ⟨hact, ?_, ?_, rfl, rfl⟩
  · intro i hi
    rw [hact, List.getD_eq_getElem?_getD, List.getD_eq_getElem?_getD,
      List.getElem?_append_left (by rw [htakelen]; exact hi),
      List.getElem?_take_of_lt hi]
  · rw [hact, List.drop_append_of_le_length (le_of_eq htakelen.symm),
      List.drop_eq_nil_of_le (le_of_eq htakelen), List.nil_append]

/-- Witness for C5 at the concrete topology `stA`, forcing the single output
slot of a fresh state to 5. -/
theorem setOutputActivation_frame_witness :
    netNoGrad.createState.activation.length =
        netNoGrad.mpe_structure.numberOfUnits ∧
      ([(5 : ℚ)]).length = netNoGrad.outputSize ∧
      netNoGrad.outputSize ≤ netNoGrad.mpe_structure.numberOfUnits ∧
      (netNoGrad.setOutputActivation netNoGrad.createState
          [(5 : ℚ)]).activation =
        netNoGrad.createState.activation.take
          (netNoGrad.mpe_structure.numberOfUnits - netNoGrad.outputSize) ++
          [(5 : ℚ)] ∧
      (netNoGrad.setOutputActivation netNoGrad.createState
          [(5 : ℚ)]).unitGradient = netNoGrad.createState.unitGradient :=
  ⟨by decide, by decide, by decide,
    (setOutputActivation_frame netNoGrad netNoGrad.createState [(5 : ℚ)]
      (by decide) (by decide) (by decide)).1,
    (setOutputActivation_frame netNoGrad netNoGrad.createState [(5 : ℚ)]
      (by decide) (by decide) (by decide)).2.2.2.2⟩

/-- C9: evaluation of the failing operation sequence
addModel(w=1); addModel(w=2); setWeight(0, 5) — the stored total
`m_weightSum` ends up as `5 - 1 = 4` while the true sum of the stored
weights is `5 + 2 = 7`, breaking the documented invariant behind `doEval`'s
division (`MeanModel.h` lines 144–147 assign the total instead of adjusting
it). -/
theorem setWeight_breaks_weightSum_invariant :
    afterOps =
        Except.ok { m_models := [(), ()], m_weight := [5, 2], m_weightSum := 4 } ∧
      ¬ MeanModel.weightInvariant
        { m_models := [(), ()], m_weight := [5, 2], m_weightSum := (4 : ℚ) } := by
  constructor
  · have h1 : (MeanModel.init : MeanModel Unit).addModel () 1 =
        Except.ok { m_models := [()], m_weight := [1], m_weightSum := 1 } := by
      unfold MeanModel.addModel
      rw [if_pos (by norm_num : (0 : ℚ) < 1)]
      norm_num [MeanModel.init]
    have h2 : (MeanModel.mk ([()] : List Unit) [1] 1).addModel () 2 =
        Except.ok { m_models := [(), ()], m_weight := [1, 2], m_weightSum := 3 } := by
      unfold MeanModel.addModel
      rw [if_pos (by norm_num : (0 : ℚ) < 2)]
      norm_num
    have h3 : (MeanModel.mk ([(), ()] : List Unit) [1, 2] 3).setWeight 0 5 =
        { m_models := [(), ()], m_weight := [5, 2], m_weightSum := 4 } := by
      unfold MeanModel.setWeight
      norm_num
    rw [afterOps]
    simp only [h1, h2, h3, bind, Except.bind, pure, Except.pure]
  · intro h
    rw [MeanModel.weightInvariant] at h
    norm_num [List.sum_cons, List.sum_nil] at h

/-- C10: `addModel` rejects every non-positive weight with the
"Weights must be positive" error (the check precedes every mutation, so the
ensemble is unchanged on failure), and for every positive weight it appends
exactly that model and weight and increases the stored total by exactly that
weight (`MeanModel.h` lines 127–132). -/
theorem addModel_checks_weight {M : Type} (mm : MeanModel M) (model : M)
    (w : ℚ) :
    (w ≤ 0 → mm.addModel model w =
      Except.error "Weights must be positive") ∧
      (0 < w → mm.addModel model w = Except.ok
        { m_models := mm.m_models ++ [model]
          m_weight := mm.m_weight ++ [w]
          m_weightSum := mm.m_weightSum + w }) := by
  constructor
  · intro h
    unfold MeanModel.addModel
    rw [if_neg (not_lt.mpr h)]
  · intro h
    unfold MeanModel.addModel
    rw [if_pos h]

/-- Witness for C10: a rejected weight `-1` and an accepted weight `1` on
the empty ensemble. -/
theorem addModel_checks_weight_witness :
    ((-1 : ℚ) ≤ 0 ∧
      (MeanModel.init : MeanModel Unit).addModel () (-1) =
        Except.error "Weights must be positive") ∧
      ((0 : ℚ) < 1 ∧
        (MeanModel.init : MeanModel Unit).addModel () 1 = Except.ok
          { m_models := (MeanModel.init : MeanModel Unit).m_models ++ [()]
            m_weight := (MeanModel.init : MeanModel Unit).m_weight ++ [1]
            m_weightSum := (MeanModel.init : MeanModel Unit).m_weightSum + 1 }) :=
  ⟨⟨by norm_num,
    (addModel_checks_weight (MeanModel.init : MeanModel Unit) ()
      (-1)).1 (by norm_num)⟩,
    ⟨by norm_num,
      (addModel_checks_weight (MeanModel.init : MeanModel Unit) ()
        1).2 (by norm_num)⟩⟩

/-- Reading entry `(p, k)` of a doubly `range`-mapped matrix yields the
generating function at `(p, k)`. -/
theorem entry_map_range {P N p k : ℕ} (f : ℕ → ℕ → ℚ) (hp : p < P)
    (hk : k < N) :
    entry ((List.range P).map fun q => (List.range N).map fun j => f q j)
      p k = f p k := by
  unfold entry
  rw [getD_map_range _ _ hp]
  show ((List.range N).map fun j => f p j).getD k 0 = f p k
  rw [getD_map_range _ _ hk]

/-- C1: at every step with gradients active, the new sensitivity entry for
parameter `p` and neuron `k` follows the real-time recurrent learning
recurrence — the activation-function derivative at neuron `k`'s current
pre-activation times the sum over source units `l` of `weight(k,l)` times
the previous step's sensitivity of `l` to `p`, plus the value flowing over
the connection from `l` into `k` exactly when `p` owns that connection's
weight. -/
theorem evalStep_sensitivity_recurrence (net : OnlineRNNet)
    (s : InternalState) (input : List ℚ)
    (hg : net.m_computeGradient = true) (p k : ℕ)
    (hp : p < net.mpe_structure.parameters)
    (hk : k < net.mpe_structure.numberOfNeurons) :
    entry (net.evalStep s input).1.unitGradient p k =
      net.mpe_structure.neuronDerivative
          (net.mpe_structure.preActivation s.activation
            (net.evalStep s input).1.activation k) *
        ((List.range net.mpe_structure.numberOfUnits).map fun l =>
          net.mpe_structure.weightVal k l *
              net.mpe_structure.sensUnit s.unitGradient p l +
            if net.mpe_structure.paramOf k l = some p then
              net.mpe_structure.connVal s.activation
                (net.evalStep s input).1.activation k l
            else 0).sum := by
  have hact : (net.evalStep s input).1.activation =
      net.mpe_structure.forwardActivations s.activation input := rfl
  have hgrad : (net.evalStep s input).1.unitGradient =
      net.mpe_structure.updateUnitGradient s.activation
        (net.mpe_structure.forwardActivations s.activation input)
        s.unitGradient := by
    show (if net.m_computeGradient then _ else _) = _
    rw [hg]
    simp
  rw [hgrad, hact]
  unfold RecurrentStructure.updateUnitGradient
  rw [entry_map_range _ hp hk]

/-- Witness for C1: one step on a fresh state of the spec §8 example
network, read at parameter 0 and neuron 0. -/
theorem evalStep_sensitivity_recurrence_witness :
    netGrad.m_computeGradient = true ∧
      0 < netGrad.mpe_structure.parameters ∧
      0 < netGrad.mpe_structure.numberOfNeurons ∧
      entry (netGrad.evalStep netGrad.createState [1]).1.unitGradient 0 0 =
        netGrad.mpe_structure.neuronDerivative
            (netGrad.mpe_structure.preActivation
              netGrad.createState.activation
              (netGrad.evalStep netGrad.createState [1]).1.activation 0) *
          ((List.range netGrad.mpe_structure.numberOfUnits).map fun l =>
            netGrad.mpe_structure.weightVal 0 l *
                netGrad.mpe_structure.sensUnit
                  netGrad.createState.unitGradient 0 l +
              if netGrad.mpe_structure.paramOf 0 l = some 0 then
                netGrad.mpe_structure.connVal netGrad.createState.activation
                  (netGrad.evalStep netGrad.createState [1]).1.activation 0 l
              else 0).sum :=
  ⟨rfl, by decide, by decide,
    evalStep_sensitivity_recurrence netGrad netGrad.createState [1] rfl 0 0
      (by decide) (by decide)⟩

/-- C2: with the sensitivity tensor present, the gradient contraction
succeeds with a vector of length `numberOfParameters` whose entry for
parameter `p` is the sum over output neurons `k` of `coefficients[k]` times
the stored sensitivity of output neuron `k` to `p`. -/
theorem weightedParameterDerivative_contracts (net : OnlineRNNet)
    (coefficients : List ℚ) (s : InternalState)
    (hG : s.unitGradient ≠ []) (p : ℕ)
    (hp : p < net.numberOfParameters) :
    (net.weightedParameterDerivative coefficients s).map List.length =
        Except.ok net.numberOfParameters ∧
      (net.weightedParameterDerivative coefficients s).map
          (fun g => g.getD p 0) =
        Except.ok ((List.range net.mpe_structure.outputs).map fun k =>
          coefficients.getD k 0 *
            entry s.unitGradient p
              (net.mpe_structure.numberOfNeurons -
                net.mpe_structure.outputs + k)).sum := by
  have hp' : p < net.mpe_structure.parameters := hp
  have hval : net.weightedParameterDerivative coefficients s =
      Except.ok ((List.range net.mpe_structure.parameters).map fun q =>
        ((List.range net.mpe_structure.outputs).map fun k =>
          coefficients.getD k 0 *
            entry s.unitGradient q
              (net.mpe_structure.numberOfNeurons -
                net.mpe_structure.outputs + k)).sum) := by
    unfold OnlineRNNet.weightedParameterDerivative
    rw [if_neg hG]
  rw [hval]
  constructor
  · show Except.ok _ = _
    rw [List.length_map, List.length_range]
    rfl
  · show Except.ok
        (((List.range net.mpe_structure.parameters).map fun q =>
          ((List.range net.mpe_structure.outputs).map fun k =>
            coefficients.getD k 0 *
              entry s.unitGradient q
                (net.mpe_structure.numberOfNeurons -
                  net.mpe_structure.outputs + k)).sum).getD p 0) = _
    rw [getD_map_range _ _ hp']

/-- Witness for C2: contraction on a fresh state of the spec §8 example
network with coefficient vector `[1]`, read at parameter 0. -/
theorem weightedParameterDerivative_contracts_witness :
    netGrad.createState.unitGradient ≠ [] ∧
      0 < netGrad.numberOfParameters ∧
      (netGrad.weightedParameterDerivative [1]
          netGrad.createState).map List.length =
        Except.ok netGrad.numberOfParameters ∧
      (netGrad.weightedParameterDerivative [1]
          netGrad.createState).map (fun g => g.getD 0 0) =
        Except.ok ((List.range netGrad.mpe_structure.outputs).map fun k =>
          ([(1 : ℚ)]).getD k 0 *
            entry netGrad.createState.unitGradient 0
              (netGrad.mpe_structure.numberOfNeurons -
                netGrad.mpe_structure.outputs + k)).sum :=
  ⟨by decide, by decide,
    (weightedParameterDerivative_contracts netGrad [1] netGrad.createState
      (by decide) 0 (by decide)).1,
    (weightedParameterDerivative_contracts netGrad [1] netGrad.createState
      (by decide) 0 (by decide)).2⟩

/-- C8: running the same finite input sequence (with the same per-step loss
coefficients) on two fresh states of the same evaluator produces identical
per-step outputs and identical per-step gradient-contraction results. -/
theorem runSequence_deterministic (net : OnlineRNNet)
    (steps : List (List ℚ × List ℚ)) (s1 s2 : InternalState)
    (h1 : s1 = net.createState) (h2 : s2 = net.createState) :
    net.runSequence s1 steps = net.runSequence s2 steps := by
  rw [h1, h2]

/-- Witness for C8: a one-step sequence on the spec §8 example network. -/
theorem runSequence_deterministic_witness :
    netGrad.createState = netGrad.createState ∧
      netGrad.runSequence netGrad.createState [([1], [1])] =
        netGrad.runSequence netGrad.createState [([1], [1])] :=
  ⟨rfl,
    runSequence_deterministic netGrad [([1], [1])] netGrad.createState
      netGrad.createState rfl rfl⟩

end SharkSpec
